import Mathlib

/-!
Verification development for the itch desktop client's install/download
orchestrator. The definitions below are a shallow embedding of:
- appsrc/reactors/tasks/queue-game.ts (the QUEUE_GAME reactor),
- appsrc/util/api.ts (ensureArray and AuthenticatedClient.listUploads),
- the macOS post-install configure bundle scan.
-/

set_option maxHeartbeats 1000000

/-! ## String containment, JS indexOf-style -/

/-- listStarts needle hay is true when hay starts with needle
(character-exact, as JS indexOf(needle) === 0 would report). -/
def listStarts : List Char → List Char → Bool
  | [], _ => true
  | _ :: _, [] => false
  | a :: as, b :: bs => (a == b) && listStarts as bs

/-- listHasSub needle hay is true when needle occurs contiguously in hay,
the semantics of JS hay.indexOf(needle) !== -1. -/
def listHasSub (needle : List Char) : List Char → Bool
  | [] => listStarts needle []
  | c :: rest => listStarts needle (c :: rest) || listHasSub needle rest

/-- strContains s needle embeds the JS test s.indexOf(needle) !== -1. -/
def strContains (s needle : String) : Bool :=
  listHasSub needle.toList s.toList

/-! ## Data model (appsrc/types) -/

/-- A game record, reduced to the fields the queue-game reactor reads. -/
structure IGameRecord where
  id : Nat
  title : String
deriving DecidableEq, Repr

/-- An upload record: artifact descriptor from the catalog.
filename and displayName are optional strings (JS absent becomes none). -/
structure IUploadRecord where
  id : Nat
  filename : Option String
  displayName : Option String
  size : Nat
deriving DecidableEq, Repr

/-- A cave record, reduced to the fields startCave reads. -/
structure ICaveRecord where
  id : String
  game : IGameRecord
deriving DecidableEq, Repr

/-- A download key (credential scoping access to non-public uploads). -/
structure IDownloadKey where
  id : Nat
deriving DecidableEq, Repr

/-! ## queue-game.ts: upload platform sniffing -/

/-- uploadContainsString from queue-game.ts: true when the upload's
filename or displayName (each defaulting to the empty string when
absent) contains the needle. -/
def uploadContainsString (upload : IUploadRecord) (needle : String) : Bool :=
  strContains (upload.filename.getD "") needle ||
  strContains (upload.displayName.getD "") needle

/-- anyUploadContainsString from queue-game.ts: true when some candidate
contains the needle. -/
def anyUploadContainsString (candidates : List IUploadRecord) (needle : String) : Bool :=
  candidates.any (fun upload => uploadContainsString upload needle)

/-- The 64/32 filter rules of queue-game.ts lines 131-141: on 64-bit
Windows, if any candidate mentions 64, drop every candidate mentioning
32; on 32-bit Windows, if any candidate mentions 32, drop every
candidate mentioning 64. -/
def sniffUploads (isWin64 : Bool) (uploads : List IUploadRecord) : List IUploadRecord :=
  if isWin64 then
    if anyUploadContainsString uploads "64" then
      uploads.filter (fun u => ! uploadContainsString u "32")
    else
      uploads
  else
    if anyUploadContainsString uploads "32" then
      uploads.filter (fun u => ! uploadContainsString u "64")
    else
      uploads

/-- The sniffing step as guarded in queue-game.ts line 112: it only runs
when there is more than one candidate and process.platform is win32. -/
def applySniff (platform : String) (isWin64 : Bool)
    (uploads : List IUploadRecord) : List IUploadRecord :=
  if 1 < uploads.length ∧ platform = "win32" then sniffUploads isWin64 uploads
  else uploads

/-- The pickedUpload filter of queue-game.ts lines 108-110: when the
payload carries a truthy pickedUpload id (JS truthiness: 0 is falsy and
skips the filter), keep only the uploads with that id. -/
def pickedFilter (pickedUpload : Option Nat) (uploads : List IUploadRecord) :
    List IUploadRecord :=
  match pickedUpload with
  | some pid => if pid == 0 then uploads else uploads.filter (fun u => u.id == pid)
  | none => uploads

/-! ## queue-game.ts: the QUEUE_GAME reactor -/

/-- The payload of a queueGame action. extraOpts carries password and
secret; pickedUpload is the id chosen from a pick-upload modal. The
pick-upload buttons additionally spread password and secret at top
level of the payload, so those fields exist here too (the reactor
itself only reads them from extraOpts). -/
structure IExtraOpts where
  password : Option String := none
  secret : Option String := none
deriving DecidableEq, Repr

structure QueueGamePayload where
  game : IGameRecord
  extraOpts : IExtraOpts := {}
  pickedUpload : Option Nat := none
  password : Option String := none
  secret : Option String := none
deriving DecidableEq, Repr

/-- A navigation tab as read by the password/secret scan: its path and
the parsed query string of that path (what urlParser.parse followed by
querystring.parse would yield). -/
structure TabData where
  path : Option String
  query : List (String × String)
deriving DecidableEq, Repr

/-- The store state slice read by the reactor: caves by game id and the
navigation tab data. -/
structure StoreState where
  cavesByGameId : List (Nat × ICaveRecord)
  tabData : List TabData
deriving DecidableEq, Repr

/-- Lookup of store.getState().globalMarket.cavesByGameId[game.id]. -/
def lookupCave (caves : List (Nat × ICaveRecord)) (gameId : Nat) : Option ICaveRecord :=
  match caves.find? (fun kv => kv.1 == gameId) with
  | some kv => some kv.2
  | none => none

/-- The literal string assigned to pathStart in queue-game.ts line 68.
The source uses plain quotes, not a template literal, so the dollar
and braces are literal characters. -/
def pathStartLiteral : String := "games/$\x7bgame.id\x7d"

/-- Lookup of a query-string parameter. -/
def lookupQuery (q : List (String × String)) (k : String) : Option String :=
  match q.find? (fun kv => kv.1 == k) with
  | some kv => some kv.2
  | none => none

/-- The tab scan of queue-game.ts lines 67-81: walk the tabs in order;
for each tab whose path starts with pathStart, override secret and
password with truthy query parameters of that name. -/
def scanTabs : List TabData → Option String → Option String →
    Option String × Option String
  | [], password, secret => (password, secret)
  | t :: rest, password, secret =>
    match t.path with
    | some p =>
      if listStarts pathStartLiteral.toList p.toList then
        let secret2 := match lookupQuery t.query "secret" with
          | some v => if v == "" then secret else some v
          | none => secret
        let password2 := match lookupQuery t.query "password" with
          | some v => if v == "" then password else some v
          | none => password
        scanTabs rest password2 secret2
      else
        scanTabs rest password secret
    | none => scanTabs rest password secret

/-- Result of the find-upload task. -/
structure FindUploadResult where
  uploads : List IUploadRecord
  downloadKey : Option IDownloadKey
deriving DecidableEq, Repr

/-- Outcome of a startTask call as seen by the reactor: an error string
or a result. -/
inductive TaskResponse where
  | err (e : String)
  | ok (r : FindUploadResult)
deriving DecidableEq, Repr

/-- Payload of the queueDownload action dispatched on the
single-candidate path. -/
structure QueueDownloadPayload where
  game : IGameRecord
  upload : IUploadRecord
  handPicked : Bool
  totalSize : Nat
  destPath : String
  downloadKey : Option IDownloadKey
  reason : String
  password : Option String
  secret : Option String
deriving DecidableEq, Repr

/-- The payload of the queueGame action wired into the try-again button
after a failed launch: actions.queueGame with only the game (queue-game.ts
line 44); all other payload fields take their defaults. -/
def startCaveRetryPayload (game : IGameRecord) : QueueGamePayload :=
  { game := game }

/-- One pick-upload modal big button's action payload: the original
payload spread, with pickedUpload set to this upload's id and the local
password and secret added at top level (queue-game.ts lines 156-161). -/
def pickOption (payload : QueueGamePayload) (password secret : Option String)
    (u : IUploadRecord) : QueueGamePayload :=
  { payload with pickedUpload := some u.id, password := password, secret := secret }

/-- The actions the QUEUE_GAME reactor dispatches, each modal recorded
with the queueGame payload its try-again or pick button re-dispatches. -/
inductive DispatchedAction where
  | queueHistoryItemCouldNotLaunch (title : String) (retry : QueueGamePayload)
  | openModalFindUploadError (retry : QueueGamePayload)
  | openModalPickUpload (title : String) (options : List QueueGamePayload)
  | queueDownload (p : QueueDownloadPayload)
  | openModalNoUploads (title : String) (retry : QueueGamePayload)
deriving DecidableEq, Repr

def DispatchedAction.isQueueDownload : DispatchedAction → Bool
  | .queueDownload _ => true
  | _ => false

def DispatchedAction.isModal : DispatchedAction → Bool
  | .openModalFindUploadError _ => true
  | .openModalPickUpload _ _ => true
  | .openModalNoUploads _ _ => true
  | _ => false

/-- One run of the reactor: the startTask calls it makes (name and
gameId, in order) and the actions it dispatches. -/
structure ReactorRun where
  tasksStarted : List (String × Nat)
  dispatched : List DispatchedAction
deriving DecidableEq, Repr

/-- The candidate list after the pickedUpload filter and the guarded
platform sniffing (queue-game.ts lines 107-144). -/
def resolvedUploads (platform : String) (isWin64 : Bool)
    (payload : QueueGamePayload) (res : FindUploadResult) : List IUploadRecord :=
  applySniff platform isWin64 (pickedFilter payload.pickedUpload res.uploads)

/-- The QUEUE_GAME reactor of queue-game.ts. Inputs that the reactor
obtains from collaborators are passed explicitly: the platform string
and 64-bit flag (process.platform, os.isWin64), the destination path
computation (pathmaker.downloadPath), the launch task's error when the
existing-cave path is taken, and the find-upload task's response when
the install path is taken. -/
def queueGameReactor (platform : String) (isWin64 : Bool)
    (downloadPath : IUploadRecord → String)
    (launchErr : Option String) (findUpload : TaskResponse)
    (state : StoreState) (payload : QueueGamePayload) : ReactorRun :=
  let game := payload.game
  match lookupCave state.cavesByGameId game.id with
  | some cave =>
    { tasksStarted := [("launch", cave.game.id)],
      dispatched :=
        match launchErr with
        | some _ =>
          [DispatchedAction.queueHistoryItemCouldNotLaunch game.title
            (startCaveRetryPayload game)]
        | none => [] }
  | none =>
    let ps := scanTabs state.tabData payload.extraOpts.password payload.extraOpts.secret
    match findUpload with
    | TaskResponse.err _ =>
      { tasksStarted := [("find-upload", game.id)],
        dispatched := [DispatchedAction.openModalFindUploadError payload] }
    | TaskResponse.ok res =>
      match resolvedUploads platform isWin64 payload res with
      | [] =>
        { tasksStarted := [("find-upload", game.id)],
          dispatched := [DispatchedAction.openModalNoUploads game.title payload] }
      | [u] =>
        { tasksStarted := [("find-upload", game.id)],
          dispatched := [DispatchedAction.queueDownload {
            game := game,
            upload := u,
            handPicked := payload.pickedUpload.isSome,
            totalSize := u.size,
            destPath := downloadPath u,
            downloadKey := res.downloadKey,
            reason := "install",
            password := ps.1,
            secret := ps.2 }] }
      | u :: v :: rest =>
        { tasksStarted := [("find-upload", game.id)],
          dispatched := [DispatchedAction.openModalPickUpload game.title
            ((u :: v :: rest).map (pickOption payload ps.1 ps.2))] }

/-! ## api.ts: ensureArray and listUploads -/

/-- A JavaScript value, as far as ensureArray and the response
transformer pipeline inspect one. -/
inductive JSVal where
  | jsUndefined
  | nullv
  | boolean (b : Bool)
  | number (n : Int)
  | str (s : String)
  | arr (xs : List JSVal)
  | obj (fields : List (String × JSVal))

/-- JS truthiness for the values modelled. -/
def truthy : JSVal → Bool
  | .jsUndefined => false
  | .nullv => false
  | .boolean b => b
  | .number n => n != 0
  | .str s => s != ""
  | .arr _ => true
  | .obj _ => true

/-- The JS property access v.length: arrays and strings expose their
length; objects expose a length field when they carry one; every other
value yields absent. -/
def lengthOf : JSVal → JSVal
  | .arr xs => .number xs.length
  | .str s => .number s.length
  | .obj fs =>
    match fs.find? (fun kv => kv.1 == "length") with
    | some kv => kv.2
    | none => .jsUndefined
  | _ => .jsUndefined

/-- ensureArray from api.ts lines 312-317: if the value is falsy or its
length is falsy, return the empty array; otherwise return the value
unchanged. -/
def ensureArray (v : JSVal) : JSVal :=
  if !(truthy v) || !(truthy (lengthOf v)) then .arr []
  else v

/-- The transformer application of Client.request (api.ts line 98):
camelBody of key is replaced by the transformer's output on that field.
The response body is modelled as a field lookup function. -/
def transformField (body : String → JSVal) (key : String) (f : JSVal → JSVal) :
    String → JSVal :=
  fun k => if k = key then f (body key) else body k

/-- AuthenticatedClient.listUploads (api.ts lines 235-244): choose the
download-key-scoped endpoint when a key is present, the public game
endpoint otherwise; in both cases request is called with the transformer
map whose uploads entry is ensureArray. The result is the request path
and the transformed response body. -/
def listUploads (downloadKey : Option IDownloadKey) (gameID : Nat)
    (body : String → JSVal) : String × (String → JSVal) :=
  match downloadKey with
  | some key =>
    ("/download-key/" ++ toString key.id ++ "/uploads",
      transformField body "uploads" ensureArray)
  | none =>
    ("/game/" ++ toString gameID ++ "/uploads",
      transformField body "uploads" ensureArray)

/-! ## macOS configure: app-bundle scan -/

/-- Outcome of one sf.lstat call: success carrying whether the entry is
a symbolic link, or a failure carrying its error code. -/
inductive StatResult where
  | ok (isSymlink : Bool)
  | errENOENT
  | errEPERM
  | errOther (code : String)
deriving DecidableEq, Repr

/-- ospath.join of the cave path with the accumulated path elements
(posix separator). -/
def joinPath (cavePath : String) (elems : List String) : String :=
  String.intercalate "/" (cavePath :: elems)

/-- splitOnChar sep acc cs splits cs at every sep, with acc the
reversed current segment: the semantics of JS split with a one-character
separator. -/
def splitOnChar (sep : Char) : List Char → List Char → List (List Char)
  | acc, [] => [acc.reverse]
  | acc, c :: rest =>
    if c == sep then acc.reverse :: splitOnChar sep [] rest
    else splitOnChar sep (c :: acc) rest

/-- res.split(ospath.sep) with the posix separator. -/
def splitPath (s : String) : List String :=
  (splitOnChar (Char.ofNat 47) [] s.toList).map (fun l => String.mk l)

/-- The per-candidate element walk of configure: for each path element
in turn, skip the candidate on a MACOSX folder, a symbolic link, or an
ENOENT or EPERM stat failure; abort the whole scan on any other stat
error. Returns ok true when the candidate is skipped, ok false when it
is kept, error when the scan fails. -/
def checkElements (lstat : String → StatResult) (cavePath : String) :
    List String → List String → Except String Bool
  | _, [] => .ok false
  | acc, e :: rest =>
    if e == "__MACOSX" then .ok true
    else
      match lstat (joinPath cavePath (acc ++ [e])) with
      | .ok true => .ok true
      | .ok false => checkElements lstat cavePath (acc ++ [e]) rest
      | .errENOENT => .ok true
      | .errEPERM => .ok true
      | .errOther c => .error c

/-- The bundle collection loop of configure: walk the glob results in
order, keep each candidate whose element walk says keep (with a trailing
slash appended), drop skipped ones, and propagate a scan failure. -/
def scanBundles (lstat : String → StatResult) (cavePath : String) :
    List String → Except String (List String)
  | [] => .ok []
  | res :: rest =>
    match checkElements lstat cavePath [] (splitPath res) with
    | .error c => .error c
    | .ok true => scanBundles lstat cavePath rest
    | .ok false =>
      match scanBundles lstat cavePath rest with
      | .error c => .error c
      | .ok bundles => .ok ((res ++ "/") :: bundles)

/-- Result of configure: the executables found. -/
structure ConfigureResult where
  executables : List String
deriving DecidableEq, Repr

/-- The macOS configure operation: scan the glob results for app
bundles; when at least one bundle survives, fix and return the bundles;
otherwise fall back to the linux-style executable fix-up over the cave
path (the fixExecs collaborator's output is passed in). A scan failure
fails the whole operation. -/
def configure (lstat : String → StatResult) (fallbackExecs : List String)
    (cavePath : String) (globRes : List String) : Except String ConfigureResult :=
  match scanBundles lstat cavePath globRes with
  | .error c => .error c
  | .ok bundles =>
    if bundles.length != 0 then .ok { executables := bundles }
    else .ok { executables := fallbackExecs }

/-! ## Theorems -/

/-- C9: on a 64-bit Windows host, a candidate whose filename or display
name contains both 32 and 64 makes the 64-rule fire (its own 64 witnesses
the any-check) and is itself dropped by the 32-filter: the first rule
checked wins. -/
theorem c9_both_needles_dropped (uploads : List IUploadRecord) (u : IUploadRecord)
    (hmem : u ∈ uploads)
    (h64 : uploadContainsString u "64" = true)
    (h32 : uploadContainsString u "32" = true) :
    u ∉ sniffUploads true uploads := by
  have hany : anyUploadContainsString uploads "64" = true := by
    unfold anyUploadContainsString
    exact List.any_eq_true.mpr ⟨u, hmem, h64⟩
  unfold sniffUploads
  simp only [if_true, hany, ite_true]
  intro hmem2
  have := (List.mem_filter.mp hmem2).2
  rw [h32] at this
  simp at this

theorem c9_both_needles_dropped_witness :
    (⟨3, some "game-32-64.zip", none, 80⟩ : IUploadRecord) ∉
      sniffUploads true
        [⟨1, some "game-x64.zip", none, 100⟩, ⟨3, some "game-32-64.zip", none, 80⟩] :=
  c9_both_needles_dropped _ _ (by decide) (by decide) (by decide)

/-- C1 counterexample: a single candidate whose filename contains both
32 and 64 satisfies the premise (some candidate contains 64, host is
64-bit Windows) yet survives resolution, because the sniffing only runs
when there is more than one candidate; it contains 32, contradicting the
claim that all 32-candidates are excluded. -/
theorem c1_counterexample :
    anyUploadContainsString [(⟨3, some "game-32-64.zip", none, 80⟩ : IUploadRecord)] "64"
      = true ∧
    uploadContainsString (⟨3, some "game-32-64.zip", none, 80⟩ : IUploadRecord) "32"
      = true ∧
    resolvedUploads "win32" true { game := ⟨7, "T"⟩ }
        ⟨[⟨3, some "game-32-64.zip", none, 80⟩], none⟩
      = [⟨3, some "game-32-64.zip", none, 80⟩] := by
  decide

/-- C1 amended: when the candidate list has more than one element (the
only case in which queue-game.ts runs the platform sniffing) and some
candidate's filename or display name contains 64, on a 64-bit Windows
host the resolved list is exactly the candidates not containing 32:
every 32-candidate is excluded and every other candidate is retained. -/
theorem c1_win64_drops_32 (uploads : List IUploadRecord)
    (hlen : 1 < uploads.length)
    (h64 : anyUploadContainsString uploads "64" = true) :
    applySniff "win32" true uploads
      = uploads.filter (fun u => ! uploadContainsString u "32") := by
  unfold applySniff
  rw [if_pos ⟨hlen, rfl⟩]
  unfold sniffUploads
  simp only [if_true, h64, ite_true]

theorem c1_win64_drops_32_witness :
    applySniff "win32" true
        [⟨1, some "game-x64.zip", none, 100⟩, ⟨2, some "game-x86-32.zip", none, 90⟩]
      = List.filter (fun u => ! uploadContainsString u "32")
        [⟨1, some "game-x64.zip", none, 100⟩, ⟨2, some "game-x86-32.zip", none, 90⟩] :=
  c1_win64_drops_32 _ (by decide) (by decide)

/-- C2 counterexample: an install intent whose extraOpts carry a
password hits an existing cave whose launch fails; the try-again button
of the resulting notice carries queueGame with only the game, not the
original payload: the password is dropped. -/
theorem c2_counterexample :
    (queueGameReactor "win32" true (fun _ => "dl") (some "boom") (TaskResponse.err "")
        ⟨[(7, ⟨"cave1", ⟨7, "T"⟩⟩)], []⟩
        { game := ⟨7, "T"⟩, extraOpts := { password := some "hunter2" } }).dispatched
      = [DispatchedAction.queueHistoryItemCouldNotLaunch "T"
          (startCaveRetryPayload ⟨7, "T"⟩)] ∧
    startCaveRetryPayload ⟨7, "T"⟩
      ≠ { game := ⟨7, "T"⟩, extraOpts := { password := some "hunter2" } } := by
  decide

/-- C2 amended: the find-upload failure modal's try-again option carries
the original action unchanged (the full original payload, extraOpts and
pickedUpload included), while the failed-launch notice's try-again
option carries a fresh queueGame holding only the game, with extraOpts,
pickedUpload, password and secret at their defaults. -/
theorem c2_retry_payloads (platform : String) (isWin64 : Bool)
    (downloadPath : IUploadRecord → String) (launchErr : Option String)
    (e le : String) (state : StoreState) (payload : QueueGamePayload) :
    (lookupCave state.cavesByGameId payload.game.id = none →
      (queueGameReactor platform isWin64 downloadPath launchErr
          (TaskResponse.err e) state payload).dispatched
        = [DispatchedAction.openModalFindUploadError payload]) ∧
    (∀ c, lookupCave state.cavesByGameId payload.game.id = some c →
      (queueGameReactor platform isWin64 downloadPath (some le)
          (TaskResponse.err e) state payload).dispatched
        = [DispatchedAction.queueHistoryItemCouldNotLaunch payload.game.title
            { game := payload.game, extraOpts := {}, pickedUpload := none,
              password := none, secret := none }]) := by
  constructor
  · intro hcave
    unfold queueGameReactor
    simp only [hcave]
  · intro c hcave
    unfold queueGameReactor
    simp only [hcave]
    rfl

theorem c2_retry_payloads_witness :
    (queueGameReactor "win32" true (fun _ => "dl") none (TaskResponse.err "nope")
        ⟨[], []⟩ { game := ⟨7, "T"⟩, extraOpts := { password := some "p" } }).dispatched
      = [DispatchedAction.openModalFindUploadError
          { game := ⟨7, "T"⟩, extraOpts := { password := some "p" } }] ∧
    (queueGameReactor "win32" true (fun _ => "dl") (some "boom") (TaskResponse.err "")
        ⟨[(7, ⟨"cave1", ⟨7, "T"⟩⟩)], []⟩
        { game := ⟨7, "T"⟩, extraOpts := { password := some "p" } }).dispatched
      = [DispatchedAction.queueHistoryItemCouldNotLaunch "T"
          { game := ⟨7, "T"⟩, extraOpts := {}, pickedUpload := none,
            password := none, secret := none }] :=
  ⟨(c2_retry_payloads "win32" true (fun _ => "dl") none "nope" ""
      ⟨[], []⟩ { game := ⟨7, "T"⟩, extraOpts := { password := some "p" } }).1 (by decide),
   (c2_retry_payloads "win32" true (fun _ => "dl") none "" "boom"
      ⟨[(7, ⟨"cave1", ⟨7, "T"⟩⟩)], []⟩
      { game := ⟨7, "T"⟩, extraOpts := { password := some "p" } }).2
     ⟨"cave1", ⟨7, "T"⟩⟩ (by decide)⟩

/-- Helper: the reactor's run on the install path when resolution is
empty. -/
theorem reactor_zero_branch (platform : String) (isWin64 : Bool)
    (downloadPath : IUploadRecord → String) (launchErr : Option String)
    (res : FindUploadResult) (state : StoreState) (payload : QueueGamePayload)
    (hcave : lookupCave state.cavesByGameId payload.game.id = none)
    (hzero : resolvedUploads platform isWin64 payload res = []) :
    queueGameReactor platform isWin64 downloadPath launchErr
        (TaskResponse.ok res) state payload
      = { tasksStarted := [("find-upload", payload.game.id)],
          dispatched := [DispatchedAction.openModalNoUploads payload.game.title payload] } := by
  unfold queueGameReactor
  simp only [hcave, hzero]

/-- Helper: the reactor's run on the install path when resolution gives
exactly one candidate. -/
theorem reactor_single_branch (platform : String) (isWin64 : Bool)
    (downloadPath : IUploadRecord → String) (launchErr : Option String)
    (res : FindUploadResult) (state : StoreState) (payload : QueueGamePayload)
    (u : IUploadRecord)
    (hcave : lookupCave state.cavesByGameId payload.game.id = none)
    (hone : resolvedUploads platform isWin64 payload res = [u]) :
    queueGameReactor platform isWin64 downloadPath launchErr
        (TaskResponse.ok res) state payload
      = { tasksStarted := [("find-upload", payload.game.id)],
          dispatched := [DispatchedAction.queueDownload {
            game := payload.game,
            upload := u,
            handPicked := payload.pickedUpload.isSome,
            totalSize := u.size,
            destPath := downloadPath u,
            downloadKey := res.downloadKey,
            reason := "install",
            password := (scanTabs state.tabData payload.extraOpts.password
              payload.extraOpts.secret).1,
            secret := (scanTabs state.tabData payload.extraOpts.password
              payload.extraOpts.secret).2 }] } := by
  unfold queueGameReactor
  simp only [hcave, hone]

/-- Helper: the reactor's run on the install path when resolution gives
more than one candidate. -/
theorem reactor_multi_branch (platform : String) (isWin64 : Bool)
    (downloadPath : IUploadRecord → String) (launchErr : Option String)
    (res : FindUploadResult) (state : StoreState) (payload : QueueGamePayload)
    (u v : IUploadRecord) (rest : List IUploadRecord)
    (hcave : lookupCave state.cavesByGameId payload.game.id = none)
    (hmany : resolvedUploads platform isWin64 payload res = u :: v :: rest) :
    queueGameReactor platform isWin64 downloadPath launchErr
        (TaskResponse.ok res) state payload
      = { tasksStarted := [("find-upload", payload.game.id)],
          dispatched := [DispatchedAction.openModalPickUpload payload.game.title
            ((u :: v :: rest).map (pickOption payload
              (scanTabs state.tabData payload.extraOpts.password
                payload.extraOpts.secret).1
              (scanTabs state.tabData payload.extraOpts.password
                payload.extraOpts.secret).2))] } := by
  unfold queueGameReactor
  simp only [hcave, hmany]

/-- C3: when upload resolution (pickedUpload filter then platform
sniffing) yields zero candidates, the reactor dispatches exactly the
no-uploads-available modal, whose try-again button carries the original
payload, and dispatches no queueDownload action. -/
theorem c3_zero_uploads (platform : String) (isWin64 : Bool)
    (downloadPath : IUploadRecord → String) (launchErr : Option String)
    (res : FindUploadResult) (state : StoreState) (payload : QueueGamePayload)
    (hcave : lookupCave state.cavesByGameId payload.game.id = none)
    (hzero : resolvedUploads platform isWin64 payload res = []) :
    (queueGameReactor platform isWin64 downloadPath launchErr
        (TaskResponse.ok res) state payload).dispatched
      = [DispatchedAction.openModalNoUploads payload.game.title payload] ∧
    ((queueGameReactor platform isWin64 downloadPath launchErr
        (TaskResponse.ok res) state payload).dispatched).all
      (fun d => ! d.isQueueDownload) = true := by
  rw [reactor_zero_branch platform isWin64 downloadPath launchErr res state payload
    hcave hzero]
  exact ⟨rfl, rfl⟩

theorem c3_zero_uploads_witness :
    (queueGameReactor "darwin" false (fun _ => "dl") none
        (TaskResponse.ok ⟨[], none⟩) ⟨[], []⟩ { game := ⟨7, "T"⟩ }).dispatched
      = [DispatchedAction.openModalNoUploads "T" { game := ⟨7, "T"⟩ }] ∧
    ((queueGameReactor "darwin" false (fun _ => "dl") none
        (TaskResponse.ok ⟨[], none⟩) ⟨[], []⟩ { game := ⟨7, "T"⟩ }).dispatched).all
      (fun d => ! d.isQueueDownload) = true :=
  c3_zero_uploads "darwin" false (fun _ => "dl") none ⟨[], none⟩ ⟨[], []⟩
    { game := ⟨7, "T"⟩ } (by decide) (by decide)

/-- C4: when upload resolution yields exactly one candidate, the reactor
dispatches exactly one queueDownload for it, with the upload's size as
totalSize and the computed destination path, and dispatches no modal. -/
theorem c4_single_upload (platform : String) (isWin64 : Bool)
    (downloadPath : IUploadRecord → String) (launchErr : Option String)
    (res : FindUploadResult) (state : StoreState) (payload : QueueGamePayload)
    (u : IUploadRecord)
    (hcave : lookupCave state.cavesByGameId payload.game.id = none)
    (hone : resolvedUploads platform isWin64 payload res = [u]) :
    (queueGameReactor platform isWin64 downloadPath launchErr
        (TaskResponse.ok res) state payload).dispatched
      = [DispatchedAction.queueDownload {
          game := payload.game,
          upload := u,
          handPicked := payload.pickedUpload.isSome,
          totalSize := u.size,
          destPath := downloadPath u,
          downloadKey := res.downloadKey,
          reason := "install",
          password := (scanTabs state.tabData payload.extraOpts.password
            payload.extraOpts.secret).1,
          secret := (scanTabs state.tabData payload.extraOpts.password
            payload.extraOpts.secret).2 }] ∧
    ((queueGameReactor platform isWin64 downloadPath launchErr
        (TaskResponse.ok res) state payload).dispatched).all
      (fun d => ! d.isModal) = true := by
  rw [reactor_single_branch platform isWin64 downloadPath launchErr res state payload u
    hcave hone]
  exact ⟨rfl, rfl⟩

theorem c4_single_upload_witness :
    (queueGameReactor "win32" true (fun u => String.append "dl/" (u.filename.getD ""))
        none (TaskResponse.ok ⟨[⟨1, some "game-x64.zip", none, 100⟩], some ⟨9⟩⟩)
        ⟨[], []⟩ { game := ⟨7, "T"⟩ }).dispatched
      = [DispatchedAction.queueDownload {
          game := ⟨7, "T"⟩,
          upload := ⟨1, some "game-x64.zip", none, 100⟩,
          handPicked := false,
          totalSize := 100,
          destPath := "dl/game-x64.zip",
          downloadKey := some ⟨9⟩,
          reason := "install",
          password := none,
          secret := none }] ∧
    ((queueGameReactor "win32" true (fun u => String.append "dl/" (u.filename.getD ""))
        none (TaskResponse.ok ⟨[⟨1, some "game-x64.zip", none, 100⟩], some ⟨9⟩⟩)
        ⟨[], []⟩ { game := ⟨7, "T"⟩ }).dispatched).all
      (fun d => ! d.isModal) = true :=
  c4_single_upload "win32" true (fun u => String.append "dl/" (u.filename.getD ""))
    none ⟨[⟨1, some "game-x64.zip", none, 100⟩], some ⟨9⟩⟩ ⟨[], []⟩
    { game := ⟨7, "T"⟩ } ⟨1, some "game-x64.zip", none, 100⟩ (by decide) (by decide)

/-- C5: when upload resolution yields more than one candidate, the
reactor dispatches exactly one pick-upload modal whose big buttons are
the map of pickOption over the candidates (one option per candidate, in
order), each option carrying the original game and extraOpts with
pickedUpload set to that candidate's id; no queueDownload is
dispatched. -/
theorem c5_multiple_uploads (platform : String) (isWin64 : Bool)
    (downloadPath : IUploadRecord → String) (launchErr : Option String)
    (res : FindUploadResult) (state : StoreState) (payload : QueueGamePayload)
    (u v : IUploadRecord) (rest : List IUploadRecord)
    (hcave : lookupCave state.cavesByGameId payload.game.id = none)
    (hmany : resolvedUploads platform isWin64 payload res = u :: v :: rest) :
    (queueGameReactor platform isWin64 downloadPath launchErr
        (TaskResponse.ok res) state payload).dispatched
      = [DispatchedAction.openModalPickUpload payload.game.title
          ((u :: v :: rest).map (pickOption payload
            (scanTabs state.tabData payload.extraOpts.password
              payload.extraOpts.secret).1
            (scanTabs state.tabData payload.extraOpts.password
              payload.extraOpts.secret).2))] ∧
    (∀ pw sec w, (pickOption payload pw sec w).game = payload.game ∧
      (pickOption payload pw sec w).extraOpts = payload.extraOpts ∧
      (pickOption payload pw sec w).pickedUpload = some w.id) ∧
    (∀ pw sec, ((u :: v :: rest).map (pickOption payload pw sec)).length
      = (u :: v :: rest).length) ∧
    ((queueGameReactor platform isWin64 downloadPath launchErr
        (TaskResponse.ok res) state payload).dispatched).all
      (fun d => ! d.isQueueDownload) = true := by
  rw [reactor_multi_branch platform isWin64 downloadPath launchErr res state payload
    u v rest hcave hmany]
  refine ⟨rfl, ?_, ?_, rfl⟩
  · intro pw sec w
    exact ⟨rfl, rfl, rfl⟩
  · intro pw sec
    exact List.length_map _ _

theorem c5_multiple_uploads_witness :
    (queueGameReactor "darwin" false (fun _ => "dl") none
        (TaskResponse.ok ⟨[⟨1, some "a.zip", none, 10⟩, ⟨2, some "b.zip", none, 20⟩], none⟩)
        ⟨[], []⟩ { game := ⟨7, "T"⟩ }).dispatched
      = [DispatchedAction.openModalPickUpload "T"
          [{ game := ⟨7, "T"⟩, pickedUpload := some 1 },
           { game := ⟨7, "T"⟩, pickedUpload := some 2 }]] ∧
    (pickOption { game := ⟨7, "T"⟩ } none none ⟨2, some "b.zip", none, 20⟩).pickedUpload
      = some 2 := by
  refine ⟨?_, ?_⟩
  · have h := c5_multiple_uploads "darwin" false (fun _ => "dl") none
      ⟨[⟨1, some "a.zip", none, 10⟩, ⟨2, some "b.zip", none, 20⟩], none⟩ ⟨[], []⟩
      { game := ⟨7, "T"⟩ } ⟨1, some "a.zip", none, 10⟩ ⟨2, some "b.zip", none, 20⟩ []
      (by decide) (by decide)
    rw [h.1]
    rfl
  · have h := c5_multiple_uploads "darwin" false (fun _ => "dl") none
      ⟨[⟨1, some "a.zip", none, 10⟩, ⟨2, some "b.zip", none, 20⟩], none⟩ ⟨[], []⟩
      { game := ⟨7, "T"⟩ } ⟨1, some "a.zip", none, 10⟩ ⟨2, some "b.zip", none, 20⟩ []
      (by decide) (by decide)
    exact (h.2.1 none none ⟨2, some "b.zip", none, 20⟩).2.2

/-- Helper: the reactor's run on the existing-cave path. -/
theorem reactor_cave_branch (platform : String) (isWin64 : Bool)
    (downloadPath : IUploadRecord → String) (launchErr : Option String)
    (findUpload : TaskResponse) (state : StoreState) (payload : QueueGamePayload)
    (c : ICaveRecord)
    (hcave : lookupCave state.cavesByGameId payload.game.id = some c) :
    queueGameReactor platform isWin64 downloadPath launchErr findUpload state payload
      = { tasksStarted := [("launch", c.game.id)],
          dispatched :=
            match launchErr with
            | some _ =>
              [DispatchedAction.queueHistoryItemCouldNotLaunch payload.game.title
                (startCaveRetryPayload payload.game)]
            | none => [] } := by
  unfold queueGameReactor
  simp only [hcave]

/-- C6: when a cave already exists for the game, the reactor starts
exactly the launch task for that cave, never starts the find-upload
task, and dispatches no queueDownload and no modal. -/
theorem c6_existing_cave (platform : String) (isWin64 : Bool)
    (downloadPath : IUploadRecord → String) (launchErr : Option String)
    (findUpload : TaskResponse) (state : StoreState) (payload : QueueGamePayload)
    (c : ICaveRecord)
    (hcave : lookupCave state.cavesByGameId payload.game.id = some c) :
    (queueGameReactor platform isWin64 downloadPath launchErr
        findUpload state payload).tasksStarted = [("launch", c.game.id)] ∧
    ((queueGameReactor platform isWin64 downloadPath launchErr
        findUpload state payload).tasksStarted).all
      (fun t => t.1 != "find-upload") = true ∧
    ((queueGameReactor platform isWin64 downloadPath launchErr
        findUpload state payload).dispatched).all
      (fun d => ! d.isQueueDownload && ! d.isModal) = true := by
  rw [reactor_cave_branch platform isWin64 downloadPath launchErr findUpload state
    payload c hcave]
  cases launchErr with
  | none => exact ⟨rfl, rfl, rfl⟩
  | some e => exact ⟨rfl, rfl, rfl⟩

theorem c6_existing_cave_witness :
    (queueGameReactor "win32" true (fun _ => "dl") none (TaskResponse.err "")
        ⟨[(7, ⟨"cave1", ⟨7, "T"⟩⟩)], []⟩ { game := ⟨7, "T"⟩ }).tasksStarted
      = [("launch", 7)] ∧
    ((queueGameReactor "win32" true (fun _ => "dl") none (TaskResponse.err "")
        ⟨[(7, ⟨"cave1", ⟨7, "T"⟩⟩)], []⟩ { game := ⟨7, "T"⟩ }).tasksStarted).all
      (fun t => t.1 != "find-upload") = true ∧
    ((queueGameReactor "win32" true (fun _ => "dl") none (TaskResponse.err "")
        ⟨[(7, ⟨"cave1", ⟨7, "T"⟩⟩)], []⟩ { game := ⟨7, "T"⟩ }).dispatched).all
      (fun d => ! d.isQueueDownload && ! d.isModal) = true :=
  c6_existing_cave "win32" true (fun _ => "dl") none (TaskResponse.err "")
    ⟨[(7, ⟨"cave1", ⟨7, "T"⟩⟩)], []⟩ { game := ⟨7, "T"⟩ } ⟨"cave1", ⟨7, "T"⟩⟩
    (by decide)

/-- C10 counterexample: a pickedUpload id of 0 matches none of the
uploads, yet the reactor does not take the zero-candidates path: the
pickedUpload guard uses JS truthiness, 0 is falsy, the filter is
skipped, and the single candidate is queued for download instead of the
no-uploads modal being opened. -/
theorem c10_counterexample :
    ([(⟨5, some "a.zip", none, 10⟩ : IUploadRecord)].all (fun w => w.id != 0)) = true ∧
    (queueGameReactor "linux" false (fun _ => "dl") none
        (TaskResponse.ok ⟨[⟨5, some "a.zip", none, 10⟩], none⟩) ⟨[], []⟩
        { game := ⟨7, "T"⟩, pickedUpload := some 0 }).dispatched
      = [DispatchedAction.queueDownload {
          game := ⟨7, "T"⟩,
          upload := ⟨5, some "a.zip", none, 10⟩,
          handPicked := true,
          totalSize := 10,
          destPath := "dl",
          downloadKey := none,
          reason := "install",
          password := none,
          secret := none }] := by
  decide

/-- C10 amended: for every install intent whose payload carries a
nonzero pickedUpload id matching none of the find-upload results, the
filtered candidate set is empty and the reactor takes the
zero-candidates path: it opens the no-uploads modal (whose try-again
carries the original payload) and enqueues no download. -/
theorem c10_unmatched_pick (platform : String) (isWin64 : Bool)
    (downloadPath : IUploadRecord → String) (launchErr : Option String)
    (res : FindUploadResult) (state : StoreState) (payload : QueueGamePayload)
    (pid : Nat)
    (hcave : lookupCave state.cavesByGameId payload.game.id = none)
    (hpick : payload.pickedUpload = some pid)
    (hnz : pid ≠ 0)
    (hmiss : res.uploads.all (fun u => u.id != pid) = true) :
    (queueGameReactor platform isWin64 downloadPath launchErr
        (TaskResponse.ok res) state payload).dispatched
      = [DispatchedAction.openModalNoUploads payload.game.title payload] ∧
    ((queueGameReactor platform isWin64 downloadPath launchErr
        (TaskResponse.ok res) state payload).dispatched).all
      (fun d => ! d.isQueueDownload) = true := by
  have hfil : res.uploads.filter (fun u => u.id == pid) = [] := by
    rw [List.filter_eq_nil_iff]
    intro a ha
    have h := List.all_eq_true.mp hmiss a ha
    simp only [bne_iff_ne, ne_eq] at h
    simp [h]
  have hz : (pid == 0) = false := by
    simp [hnz]
  have hres : resolvedUploads platform isWin64 payload res = [] := by
    unfold resolvedUploads
    rw [hpick]
    simp only [pickedFilter, hz, Bool.false_eq_true, if_false, hfil]
    unfold applySniff
    simp
  rw [reactor_zero_branch platform isWin64 downloadPath launchErr res state payload
    hcave hres]
  exact ⟨rfl, rfl⟩

theorem c10_unmatched_pick_witness :
    (queueGameReactor "linux" false (fun _ => "dl") none
        (TaskResponse.ok ⟨[⟨5, some "a.zip", none, 10⟩], none⟩) ⟨[], []⟩
        { game := ⟨7, "T"⟩, pickedUpload := some 99 }).dispatched
      = [DispatchedAction.openModalNoUploads "T"
          { game := ⟨7, "T"⟩, pickedUpload := some 99 }] ∧
    ((queueGameReactor "linux" false (fun _ => "dl") none
        (TaskResponse.ok ⟨[⟨5, some "a.zip", none, 10⟩], none⟩) ⟨[], []⟩
        { game := ⟨7, "T"⟩, pickedUpload := some 99 }).dispatched).all
      (fun d => ! d.isQueueDownload) = true :=
  c10_unmatched_pick "linux" false (fun _ => "dl") none
    ⟨[⟨5, some "a.zip", none, 10⟩], none⟩ ⟨[], []⟩
    { game := ⟨7, "T"⟩, pickedUpload := some 99 } 99
    (by decide) (by decide) (by decide) (by decide)

/-- Helper: ensureArray never returns the null value. -/
theorem ensureArray_ne_null (v : JSVal) : ensureArray v ≠ JSVal.nullv := by
  unfold ensureArray
  split
  · intro h
    cases h
  · intro h
    rename_i hcond
    rw [h] at hcond
    simp [truthy] at hcond

/-- C7: ensureArray maps any falsy value, and any value whose length
property is falsy, to the empty array, and leaves every other value
unchanged; listUploads applies it to the uploads field of the response
of both the download-key-scoped endpoint and the public game endpoint,
so the uploads listing handed to the resolver is never null. -/
theorem c7_uploads_never_null :
    (∀ v : JSVal, truthy v = false ∨ truthy (lengthOf v) = false →
      ensureArray v = JSVal.arr []) ∧
    (∀ v : JSVal, truthy v = true → truthy (lengthOf v) = true →
      ensureArray v = v) ∧
    (∀ (dk : Option IDownloadKey) (gid : Nat) (body : String → JSVal),
      (listUploads dk gid body).2 "uploads" = ensureArray (body "uploads")) ∧
    (∀ (key : IDownloadKey) (gid : Nat) (body : String → JSVal),
      (listUploads (some key) gid body).1
        = "/download-key/" ++ toString key.id ++ "/uploads" ∧
      (listUploads none gid body).1 = "/game/" ++ toString gid ++ "/uploads") ∧
    (∀ (dk : Option IDownloadKey) (gid : Nat) (body : String → JSVal),
      (listUploads dk gid body).2 "uploads" ≠ JSVal.nullv) := by
  refine ⟨?_, ?_, ?_, ?_, ?_⟩
  · intro v h
    unfold ensureArray
    rcases h with h | h <;> rw [if_pos] <;> simp [h]
  · intro v h1 h2
    unfold ensureArray
    rw [if_neg]
    simp [h1, h2]
  · intro dk gid body
    cases dk with
    | none => simp [listUploads, transformField]
    | some key => simp [listUploads, transformField]
  · intro key gid body
    exact ⟨rfl, rfl⟩
  · intro dk gid body
    cases dk with
    | none =>
      simp only [listUploads, transformField, if_pos]
      exact ensureArray_ne_null _
    | some key =>
      simp only [listUploads, transformField, if_pos]
      exact ensureArray_ne_null _

/-- A concrete response body used to witness c7_uploads_never_null. -/
def exampleBody : String → JSVal :=
  fun k => if k = "uploads" then JSVal.nullv else JSVal.str "x"

theorem c7_uploads_never_null_witness :
    ensureArray JSVal.nullv = JSVal.arr [] ∧
    ensureArray (JSVal.arr [JSVal.number 1]) = JSVal.arr [JSVal.number 1] ∧
    (listUploads (some ⟨12⟩) 3 exampleBody).2 "uploads"
      = ensureArray (exampleBody "uploads") ∧
    (listUploads (some ⟨12⟩) 3 exampleBody).1 = "/download-key/12/uploads" ∧
    (listUploads none 3 exampleBody).2 "uploads" ≠ JSVal.nullv :=
  ⟨c7_uploads_never_null.1 JSVal.nullv (Or.inl rfl),
   c7_uploads_never_null.2.1 (JSVal.arr [JSVal.number 1]) rfl rfl,
   c7_uploads_never_null.2.2.1 (some ⟨12⟩) 3 exampleBody,
   ((c7_uploads_never_null.2.2.2.1 ⟨12⟩ 3 exampleBody).1).trans (by decide),
   c7_uploads_never_null.2.2.2.2 none 3 exampleBody⟩

/-- C8: during the app-bundle scan, a candidate whose next path element
stats as a symbolic link or fails with ENOENT or EPERM is skipped (the
element walk answers skip); a skipped candidate is dropped from the
result without aborting the scan of the remaining candidates; a stat
failure with any other code makes the element walk, the scan, and the
whole configure operation fail with that code. -/
theorem c8_bundle_scan (lstat : String → StatResult) (cavePath : String) :
    (∀ (acc : List String) (e : String) (rest : List String),
      ¬(e = "__MACOSX") →
      (lstat (joinPath cavePath (acc ++ [e])) = StatResult.ok true ∨
       lstat (joinPath cavePath (acc ++ [e])) = StatResult.errENOENT ∨
       lstat (joinPath cavePath (acc ++ [e])) = StatResult.errEPERM) →
      checkElements lstat cavePath acc (e :: rest) = Except.ok true) ∧
    (∀ (res : String) (rest : List String),
      checkElements lstat cavePath [] (splitPath res) = Except.ok true →
      scanBundles lstat cavePath (res :: rest) = scanBundles lstat cavePath rest) ∧
    (∀ (acc : List String) (e : String) (rest : List String) (c : String),
      ¬(e = "__MACOSX") →
      lstat (joinPath cavePath (acc ++ [e])) = StatResult.errOther c →
      checkElements lstat cavePath acc (e :: rest) = Except.error c) ∧
    (∀ (res : String) (rest : List String) (c : String),
      checkElements lstat cavePath [] (splitPath res) = Except.error c →
      scanBundles lstat cavePath (res :: rest) = Except.error c) ∧
    (∀ (globRes fallbackExecs : List String) (c : String),
      scanBundles lstat cavePath globRes = Except.error c →
      configure lstat fallbackExecs cavePath globRes = Except.error c) := by
  refine ⟨?_, ?_, ?_, ?_, ?_⟩
  · intro acc e rest hname hstat
    unfold checkElements
    rw [if_neg (by simpa using hname)]
    rcases hstat with h | h | h <;> rw [h]
  · intro res rest hskip
    conv_lhs => rw [scanBundles]
    rw [hskip]
  · intro acc e rest c hname hstat
    unfold checkElements
    rw [if_neg (by simpa using hname)]
    rw [hstat]
  · intro res rest c herr
    unfold scanBundles
    rw [herr]
  · intro globRes fallbackExecs c herr
    unfold configure
    rw [herr]

/-- A concrete filesystem used to witness c8_bundle_scan. -/
def exampleLstat : String → StatResult :=
  fun p =>
    if p = "cave/Link.app" then StatResult.ok true
    else if p = "cave/Gone.app" then StatResult.errENOENT
    else if p = "cave/Locked.app" then StatResult.errEPERM
    else if p = "cave/Weird.app" then StatResult.errOther "EACCES"
    else StatResult.ok false

theorem c8_bundle_scan_witness :
    checkElements exampleLstat "cave" [] ["Link.app"] = Except.ok true ∧
    checkElements exampleLstat "cave" [] ["Gone.app"] = Except.ok true ∧
    checkElements exampleLstat "cave" [] ["Locked.app"] = Except.ok true ∧
    scanBundles exampleLstat "cave" ["Link.app", "Fine.app"]
      = scanBundles exampleLstat "cave" ["Fine.app"] ∧
    checkElements exampleLstat "cave" [] ["Weird.app"] = Except.error "EACCES" ∧
    scanBundles exampleLstat "cave" ["Weird.app"] = Except.error "EACCES" ∧
    configure exampleLstat [] "cave" ["Weird.app"] = Except.error "EACCES" :=
  ⟨(c8_bundle_scan exampleLstat "cave").1 [] "Link.app" [] (by decide)
     (Or.inl (by decide)),
   (c8_bundle_scan exampleLstat "cave").1 [] "Gone.app" [] (by decide)
     (Or.inr (Or.inl (by decide))),
   (c8_bundle_scan exampleLstat "cave").1 [] "Locked.app" [] (by decide)
     (Or.inr (Or.inr (by decide))),
   (c8_bundle_scan exampleLstat "cave").2.1 "Link.app" ["Fine.app"] (by rfl),
   (c8_bundle_scan exampleLstat "cave").2.2.1 [] "Weird.app" [] "EACCES" (by decide)
     (by decide),
   (c8_bundle_scan exampleLstat "cave").2.2.2.1 "Weird.app" [] "EACCES" (by rfl),
   (c8_bundle_scan exampleLstat "cave").2.2.2.2 ["Weird.app"] [] "EACCES" (by rfl)⟩
